import Mathlib

/-!
# Weather analytics dashboard

A shallow embedding of the server routes (`server/routes/weather.js`), the
stored document (`server/models/Search.js`) and the client's state handling
and derived series (`client/src/App.js`), with the properties proved of them.

The outside world (the weather provider, the document store's failures and the
clock) is passed to each operation as an explicit argument.
-/

namespace Weather

/-! ## Data model -/

/-- The `rain` object of a forecast entry; the `'3h'` key may be missing. -/
structure Rain where
  h3 : Option ℚ
deriving DecidableEq, Repr

/-- One element of the provider's `list`: the fields the two chart series
read (`dt`, `main.temp`, and the optional `rain`). -/
structure Entry where
  dt : Nat
  temp : ℚ
  rain : Option Rain
deriving DecidableEq, Repr

/-- The provider payload `{city: {name, country}, list: [...]}`. -/
structure Payload where
  name : String
  country : String
  list : List Entry
deriving DecidableEq, Repr

/-- A document of the `Search` model: `{city: String, data: Object,
timestamp: {type: Date, default: Date.now}}`. -/
structure Record where
  city : String
  data : Payload
  timestamp : Nat
deriving DecidableEq, Repr

/-- The collection, in its natural (insertion) order. -/
abbrev Store := List Record

/-- A body passed to `res.json`. -/
inductive Body where
  | payload (data : Payload)
  | error (msg : String)
  | records (rs : List Record)
deriving DecidableEq, Repr

/-- What a handler sends: the status set with `res.status` (200 when it is not
set) and the JSON body. -/
structure Response where
  status : Nat
  body : Body
deriving DecidableEq, Repr

/-! ## The store operations -/

/-- `Search.findOneAndUpdate({ city }, { city, data }, { upsert: true, new: true })`.
The update document has no operator, so it is applied as a `$set` of `city`
and `data` on the first document whose `city` equals the filter's; every other
field of that document, `timestamp` included, is left as it is. When no
document matches, one is inserted with `city`, `data` and the schema default
`timestamp`, which is `Date.now()`, here `now`. -/
def findOneAndUpdate (store : Store) (city : String) (data : Payload) (now : Nat) : Store :=
  match store with
  | [] => [{ city := city, data := data, timestamp := now }]
  | r :: rest =>
    if r.city = city then { r with city := city, data := data } :: rest
    else r :: findOneAndUpdate rest city data now

/-- Order of `sort({ timestamp: -1 })`: `a` may come before `b`. -/
def tsDesc (a b : Record) : Prop := b.timestamp ≤ a.timestamp

instance : DecidableRel tsDesc := fun a b => inferInstanceAs (Decidable (b.timestamp ≤ a.timestamp))

instance : IsTotal Record tsDesc := ⟨fun a b => Nat.le_total b.timestamp a.timestamp⟩

instance : IsTrans Record tsDesc := ⟨fun _ _ _ hab hbc => Nat.le_trans hbc hab⟩

/-- `Search.find().sort({ timestamp: -1 }).limit(10)`. The order among
documents of equal timestamp is whatever the sort gives; no property below
depends on it. -/
def findSortLimit (store : Store) : List Record :=
  (store.insertionSort tsDesc).take 10

/-! ## The route handlers -/

/-- What the world does during one request to the forecast route: the result
of `axios.get` (its `response.data`, or the error it rejects with), whether
the store write rejects, and the clock at the write. -/
structure World where
  provider : Except String Payload
  writeError : Option String
  now : Nat

/-- The `try` block of the forecast handler: the provider call, then the
write, then `res.json(data)`. Returns the response and the store, or the
error thrown. -/
def forecastTry (w : World) (store : Store) (city : String) : Except String (Response × Store) := do
  let data ← w.provider
  let store' ← (match w.writeError with
    | some e => Except.error e
    | none => Except.ok (findOneAndUpdate store city data w.now))
  pure ({ status := 200, body := Body.payload data }, store')

/-- The handler of `router.get('/:city')`: the `try` block, and the `catch`
that answers `res.status(500).json({ error: 'City not found!' })`. The result
is `Except.error` when an error leaves the handler. -/
def forecastHandler (w : World) (store : Store) (city : String) : Except String (Response × Store) :=
  match forecastTry w store city with
  | Except.ok r => Except.ok r
  | Except.error _ => Except.ok ({ status := 500, body := Body.error "City not found!" }, store)

/-- The handler of `router.get('/history')`: `readError` is the error the
query rejects with, if it does. -/
def historyHandler (store : Store) (readError : Option String) : Except String (Response × Store) :=
  match (match readError with
    | some e => (Except.error e : Except String (List Record))
    | none => Except.ok (findSortLimit store)) with
  | Except.ok history => Except.ok ({ status := 200, body := Body.records history }, store)
  | Except.error _ => Except.ok ({ status := 500, body := Body.records [] }, store)

/-- One request to the forecast route: the `:city` parameter and what the
world does during it. -/
structure Call where
  city : String
  world : World

/-- The store after one forecast request. -/
def forecastStep (store : Store) (c : Call) : Store :=
  match forecastHandler c.world store c.city with
  | Except.ok (_, store') => store'
  | Except.error _ => store

/-- The store after a sequence of forecast requests, one after the other. -/
def runCalls (store : Store) (calls : List Call) : Store :=
  calls.foldl forecastStep store

/-- A forecast request succeeds when the provider answers and the write goes through. -/
def Call.successful (c : Call) : Bool :=
  match c.world.provider with
  | Except.ok _ => c.world.writeError.isNone
  | Except.error _ => false

/-- Number of stored records whose `city` is `city`. -/
def countCity (store : Store) (city : String) : Nat :=
  store.countP (fun r => decide (r.city = city))

/-- Status codes of the success class (2xx), the ones an HTTP client such as
axios resolves on. -/
def isSuccessStatus (status : Nat) : Bool :=
  decide (200 ≤ status) && decide (status < 300)

/-! ## The router -/

/-- The routes of the router, named by their handler. -/
inductive Route where
  | forecast
  | history
deriving DecidableEq, Repr

/-- The routes in the order of the `router.get` calls of `weather.js`:
`'/:city'` first, `'/history'` second. -/
def routes : List Route := [Route.forecast, Route.history]

/-- What matching a route gives: a matched route with its parameters, or
`badParam` when the pattern matches and the parameter cannot be decoded. -/
inductive Target where
  | forecast (city : String)
  | history
  | badParam (raw : String)
deriving DecidableEq, Repr

/-- Non-strict routing: one trailing slash is optional. -/
def dropTrailingSlash (cs : List Char) : List Char :=
  match cs.reverse with
  | '/' :: rest => rest.reverse
  | _ => cs

/-- Value of a hexadecimal digit. -/
def hexVal (c : Char) : Option Nat :=
  let n := c.toNat
  if 48 ≤ n ∧ n ≤ 57 then some (n - 48)
  else if 65 ≤ n ∧ n ≤ 70 then some (n - 55)
  else if 97 ≤ n ∧ n ≤ 102 then some (n - 87)
  else none

/-- Where the decoder stands inside an escape `%XY`: outside one, after the
`%`, or after the first digit. -/
inductive EscPos where
  | outside
  | afterPercent
  | afterDigit (hi : Nat)
deriving DecidableEq, Repr

/-- `decodeURIComponent`, read one character at a time. `need` is the number
of continuation octets the current UTF-8 sequence still expects, `acc` the
code point bits read so far and `low` the least code point a sequence of this
length may encode. `none` is the `URIError`: a `%` not followed by two
hexadecimal digits, or octets that are not well-formed UTF-8. -/
def decodeFrom : EscPos → Nat → Nat → Nat → List Char → Option (List Char)
  | pos, need, _, _, [] => if pos = EscPos.outside ∧ need = 0 then some [] else none
  | EscPos.outside, need, acc, low, c :: cs =>
    if c = '%' then decodeFrom EscPos.afterPercent need acc low cs
    else if need = 0 then (decodeFrom EscPos.outside 0 0 0 cs).map (fun out => c :: out)
    else none
  | EscPos.afterPercent, need, acc, low, c :: cs =>
    match hexVal c with
    | some hi => decodeFrom (EscPos.afterDigit hi) need acc low cs
    | none => none
  | EscPos.afterDigit hi, need, acc, low, c :: cs =>
    match hexVal c with
    | none => none
    | some lo =>
      let b := 16 * hi + lo
      match need with
      | 0 =>
        if b < 128 then (decodeFrom EscPos.outside 0 0 0 cs).map (fun out => Char.ofNat b :: out)
        else if b < 192 then none
        else if b < 224 then decodeFrom EscPos.outside 1 (b - 192) 128 cs
        else if b < 240 then decodeFrom EscPos.outside 2 (b - 224) 2048 cs
        else if b < 248 then decodeFrom EscPos.outside 3 (b - 240) 65536 cs
        else none
      | k + 1 =>
        if 128 ≤ b ∧ b < 192 then
          let v := acc * 64 + (b - 128)
          if k = 0 then
            if low ≤ v ∧ v ≤ 1114111 ∧ ¬ (55296 ≤ v ∧ v ≤ 57343) then
              (decodeFrom EscPos.outside 0 0 0 cs).map (fun out => Char.ofNat v :: out)
            else none
          else decodeFrom EscPos.outside k v low cs
        else none

/-- `decodeURIComponent(s)` on the characters of `s`. -/
def decodeURIComponent (cs : List Char) : Option (List Char) :=
  decodeFrom EscPos.outside 0 0 0 cs

/-- Match a request path (relative to the mount point) against a route's
pattern. `'/:city'` matches a slash followed by one non-empty segment without
a slash and binds `city` to the segment decoded with `decodeURIComponent`; when
the decoding throws, the match is a `badParam`. `'/history'` matches that
word, in any letter case. -/
def matchRoute (r : Route) (path : String) : Option Target :=
  match r with
  | Route.forecast =>
    match path.data with
    | '/' :: cs =>
      let seg := dropTrailingSlash cs
      if seg ≠ [] ∧ '/' ∉ seg then
        match decodeURIComponent seg with
        | some city => some (Target.forecast (String.mk city))
        | none => some (Target.badParam (String.mk seg))
      else none
    | _ => none
  | Route.history =>
    match path.data with
    | '/' :: cs =>
      if (dropTrailingSlash cs).map Char.toLower = "history".data then some Target.history else none
    | _ => none

/-- The first registered route whose pattern matches the path. Neither handler
calls `next`, so no later route runs; after a parameter that cannot be decoded
the router lets no later route match either. -/
def dispatch (path : String) : Option Target :=
  routes.findSome? (fun r => matchRoute r path)

/-- A GET request to the router: the handler of the matched route is run;
`none` when no route matches. For a parameter that cannot be decoded no
handler runs and the router passes on an error (of status 400), here
`Except.error`. -/
def routerGet (w : World) (readError : Option String) (store : Store) (path : String) :
    Option (Except String (Response × Store)) :=
  match dispatch path with
  | some (Target.forecast city) => some (forecastHandler w store city)
  | some Target.history => some (historyHandler store readError)
  | some (Target.badParam raw) => some (Except.error ("Failed to decode param " ++ raw))
  | none => none

/-! ## The client -/

/-- The four `useState` cells of `App`. -/
structure ClientState where
  city : String
  weather : Option Payload
  loading : Bool
  error : Option String
deriving DecidableEq, Repr

/-- The characters `String.prototype.trim` removes: white space and line
terminators. -/
def isJsWhiteSpace (c : Char) : Bool :=
  let n := c.toNat
  n = 0x09 || n = 0x0A || n = 0x0B || n = 0x0C || n = 0x0D || n = 0x20 || n = 0xA0 ||
  n = 0x1680 || (0x2000 ≤ n && n ≤ 0x200A) || n = 0x2028 || n = 0x2029 || n = 0x202F ||
  n = 0x205F || n = 0x3000 || n = 0xFEFF

/-- `s.trim()`. -/
def jsTrim (s : String) : String :=
  String.mk ((s.data.dropWhile isJsWhiteSpace).reverse.dropWhile isJsWhiteSpace).reverse

/-- `fetchWeather`, with `result` the outcome of the `axios.get` it awaits:
the state after the setters it calls have run, in their order. -/
def fetchWeather (s : ClientState) (result : Except String Payload) : ClientState :=
  if jsTrim s.city = "" then s
  else
    let s1 := { s with loading := true }
    let s2 := { s1 with error := none }
    let s3 := match result with
      | Except.ok data => { s2 with weather := some data }
      | Except.error _ => { s2 with error := some "City not found or server error. Please try again." }
    { s3 with loading := false }

/-- `xs.filter((x, i) => p(x, i))`, with `i` the index of the first element. -/
def filterWithIndex {α : Type} (p : α → Nat → Bool) : Nat → List α → List α
  | _, [] => []
  | i, x :: xs =>
    if p x i then x :: filterWithIndex p (i + 1) xs else filterWithIndex p (i + 1) xs

/-- `weather ? weather.list.filter((_, i) => i % 8 === 0) : []`. -/
def dailyData (weather : Option Payload) : List Entry :=
  match weather with
  | some w => filterWithIndex (fun _ i => i % 8 == 0) 0 w.list
  | none => []

/-- The JavaScript values the precipitation expression handles. -/
inductive JsVal where
  | undefined
  | num (x : ℚ)
  | obj (r : Rain)
deriving DecidableEq, Repr

/-- Truthiness: `undefined` and `0` are falsy, an object and any other number truthy. -/
def JsVal.truthy : JsVal → Bool
  | JsVal.undefined => false
  | JsVal.num x => decide (x ≠ 0)
  | JsVal.obj _ => true

/-- `d.rain`: `undefined` when the entry has no `rain` field. -/
def Entry.rainVal (d : Entry) : JsVal :=
  match d.rain with
  | some r => JsVal.obj r
  | none => JsVal.undefined

/-- `v['3h']`: a `TypeError` on `undefined`, `undefined` on a number or on an
object without the key. -/
def JsVal.get3h : JsVal → Except String JsVal
  | JsVal.undefined => Except.error "TypeError: Cannot read properties of undefined"
  | JsVal.num _ => Except.ok JsVal.undefined
  | JsVal.obj r =>
    match r.h3 with
    | some x => Except.ok (JsVal.num x)
    | none => Except.ok JsVal.undefined

/-- `d => d.rain ? d.rain['3h'] || 0 : 0`. -/
def precip (d : Entry) : Except String JsVal :=
  if d.rainVal.truthy then do
    let v ← d.rainVal.get3h
    pure (if v.truthy then v else JsVal.num 0)
  else pure (JsVal.num 0)

/-- `xs.map(f)` for a callback that may throw: the first error ends the map. -/
def mapThrow {α β : Type} (f : α → Except String β) : List α → Except String (List β)
  | [] => Except.ok []
  | x :: xs =>
    match f x with
    | Except.error e => Except.error e
    | Except.ok y =>
      match mapThrow f xs with
      | Except.error e => Except.error e
      | Except.ok ys => Except.ok (y :: ys)

/-- The `data` of the precipitation chart: `dailyData.map(d => d.rain ? d.rain['3h'] || 0 : 0)`. -/
def precipData (weather : Option Payload) : Except String (List JsVal) :=
  mapThrow precip (dailyData weather)

/-- The precipitation value as the specification words it, to compare with
`precip`: 0 for an entry without `rain`, 0 when `rain` has no `'3h'` value, and
the `'3h'` value otherwise. -/
def precipSpec (d : Entry) : ℚ :=
  match d.rain with
  | none => 0
  | some r =>
    match r.h3 with
    | none => 0
    | some x => x

/-! ## Sample data -/

/-- A payload with an empty forecast list. -/
def payloadA : Payload := { name := "Paris", country := "FR", list := [] }

/-- A payload with one entry. -/
def payloadB : Payload :=
  { name := "Paris", country := "FR", list := [{ dt := 1700000000, temp := 12, rain := none }] }

/-- A world in which the provider answers `d` and the write goes through at time `now`. -/
def worldOk (d : Payload) (now : Nat) : World :=
  { provider := Except.ok d, writeError := none, now := now }

/-- A world in which the provider call fails with `e`. -/
def worldProviderDown (e : String) (now : Nat) : World :=
  { provider := Except.error e, writeError := none, now := now }

/-- A world in which the provider answers `d` and the write rejects with `e`. -/
def worldWriteDown (d : Payload) (e : String) (now : Nat) : World :=
  { provider := Except.ok d, writeError := some e, now := now }

/-- A run of three requests: Paris succeeds, an unknown city fails, Rome succeeds. -/
def sampleCalls : List Call :=
  [ { city := "Paris", world := worldOk payloadA 5 },
    { city := "Zzyzxtown", world := worldProviderDown "404" 6 },
    { city := "Rome", world := worldOk payloadA 7 } ]

/-- A store of twelve records with the timestamps 1, 2, ..., 12. -/
def sampleStore : Store :=
  (List.range 12).map (fun i => { city := toString i, data := payloadA, timestamp := i + 1 })

/-- A payload of forty entries, numbered by their `dt`. -/
def payload40 : Payload :=
  { name := "Paris", country := "FR",
    list := (List.range 40).map (fun i => { dt := i, temp := 10, rain := none }) }

/-- An entry with 3 mm of rain. -/
def entryRain : Entry := { dt := 0, temp := 10, rain := some { h3 := some 3 } }

/-- A payload of seventeen entries: 3 mm of rain at index 0, a `rain` object
without `'3h'` at index 8, no `rain` at index 16, and 5 mm everywhere else. -/
def payloadRain : Payload :=
  { name := "Paris", country := "FR",
    list := (List.range 17).map (fun i =>
      { dt := i, temp := 10,
        rain := if i = 0 then some { h3 := some 3 }
          else if i = 8 then some { h3 := none }
          else if i = 16 then none
          else some { h3 := some 5 } }) }

/-- A client state showing an earlier result. -/
def clientShowing : ClientState :=
  { city := "Paris", weather := some payloadB, loading := false, error := none }

/-! ## The forecast handler, case by case -/

theorem forecastHandler_success (w : World) (store : Store) (city : String) (d : Payload)
    (hp : w.provider = Except.ok d) (hw : w.writeError = none) :
    forecastHandler w store city
      = Except.ok ({ status := 200, body := Body.payload d }, findOneAndUpdate store city d w.now) := by
  simp [forecastHandler, forecastTry, hp, hw, bind, Except.bind, pure, Except.pure]

theorem forecastHandler_provider_error (w : World) (store : Store) (city : String) (e : String)
    (hp : w.provider = Except.error e) :
    forecastHandler w store city
      = Except.ok ({ status := 500, body := Body.error "City not found!" }, store) := by
  simp [forecastHandler, forecastTry, hp, bind, Except.bind]

theorem forecastHandler_write_error (w : World) (store : Store) (city : String) (d : Payload)
    (e : String) (hp : w.provider = Except.ok d) (hw : w.writeError = some e) :
    forecastHandler w store city
      = Except.ok ({ status := 500, body := Body.error "City not found!" }, store) := by
  simp [forecastHandler, forecastTry, hp, hw, bind, Except.bind]

/-! ## Counting records per city -/

theorem countCity_cons (r : Record) (rest : Store) (city : String) :
    countCity (r :: rest) city = countCity rest city + (if r.city = city then 1 else 0) := by
  simp [countCity, List.countP_cons]

theorem countCity_findOneAndUpdate_self (store : Store) (city : String) (d : Payload) (now : Nat) :
    countCity (findOneAndUpdate store city d now) city = max 1 (countCity store city) := by
  induction store with
  | nil => simp [findOneAndUpdate, countCity]
  | cons r rest ih =>
    by_cases h : r.city = city
    · simp [findOneAndUpdate, h, countCity_cons]
    · simp [findOneAndUpdate, h, countCity_cons, ih]

theorem countCity_findOneAndUpdate_other (store : Store) (city other : String) (d : Payload)
    (now : Nat) (h : other ≠ city) :
    countCity (findOneAndUpdate store city d now) other = countCity store other := by
  induction store with
  | nil => simp [findOneAndUpdate, countCity, Ne.symm h]
  | cons r rest ih =>
    by_cases hr : r.city = city
    · have hne : ¬ city = other := fun hc => h hc.symm
      simp [findOneAndUpdate, hr, countCity_cons, hne]
    · simp [findOneAndUpdate, hr, countCity_cons, ih]

theorem length_findOneAndUpdate (store : Store) (city : String) (d : Payload) (now : Nat) :
    (findOneAndUpdate store city d now).length
      = if countCity store city = 0 then store.length + 1 else store.length := by
  induction store with
  | nil => simp [findOneAndUpdate, countCity]
  | cons r rest ih =>
    by_cases h : r.city = city
    · simp [findOneAndUpdate, h, countCity_cons]
    · simp only [findOneAndUpdate, h, countCity_cons, if_false, List.length_cons, ih, Nat.add_zero]
      split <;> rfl

/-- The forecast step is the identity, or the upsert of the provider's payload. -/
theorem forecastStep_cases (store : Store) (c : Call) :
    (c.successful = false ∧ forecastStep store c = store) ∨
    (c.successful = true ∧
      ∃ d, c.world.provider = Except.ok d ∧
        forecastStep store c = findOneAndUpdate store c.city d c.world.now) := by
  cases hp : c.world.provider with
  | error e =>
    left
    refine ⟨by simp [Call.successful, hp], ?_⟩
    simp [forecastStep, forecastHandler_provider_error _ _ _ e hp]
  | ok d =>
    cases hw : c.world.writeError with
    | some e =>
      left
      refine ⟨by simp [Call.successful, hp, hw], ?_⟩
      simp [forecastStep, forecastHandler_write_error _ _ _ d e hp hw]
    | none =>
      right
      refine ⟨by simp [Call.successful, hp, hw], d, rfl, ?_⟩
      simp [forecastStep, forecastHandler_success _ _ _ d hp hw]

theorem forecastStep_atMostOne (store : Store) (c : Call)
    (h : ∀ city, countCity store city ≤ 1) : ∀ city, countCity (forecastStep store c) city ≤ 1 := by
  intro city
  rcases forecastStep_cases store c with ⟨_, hs⟩ | ⟨_, d, _, hs⟩
  · rw [hs]; exact h city
  · rw [hs]
    by_cases hc : city = c.city
    · subst hc
      rw [countCity_findOneAndUpdate_self]
      have := h c.city
      omega
    · rw [countCity_findOneAndUpdate_other _ _ _ _ _ hc]; exact h city

theorem runCalls_atMostOne (calls : List Call) (store : Store)
    (h : ∀ city, countCity store city ≤ 1) : ∀ city, countCity (runCalls store calls) city ≤ 1 := by
  induction calls generalizing store with
  | nil => simpa [runCalls] using h
  | cons c cs ih => exact ih (forecastStep store c) (forecastStep_atMostOne store c h)

theorem forecastStep_present (store : Store) (c : Call) (city : String)
    (h : 1 ≤ countCity store city) : 1 ≤ countCity (forecastStep store c) city := by
  rcases forecastStep_cases store c with ⟨_, hs⟩ | ⟨_, d, _, hs⟩
  · rw [hs]; exact h
  · rw [hs]
    by_cases hc : city = c.city
    · subst hc
      rw [countCity_findOneAndUpdate_self]
      omega
    · rw [countCity_findOneAndUpdate_other _ _ _ _ _ hc]; exact h

theorem runCalls_present (calls : List Call) (store : Store) (city : String)
    (h : 1 ≤ countCity store city) : 1 ≤ countCity (runCalls store calls) city := by
  induction calls generalizing store with
  | nil => simpa [runCalls] using h
  | cons c cs ih => exact ih (forecastStep store c) (forecastStep_present store c city h)

theorem forecastStep_successful_count (store : Store) (c : Call) (hs : c.successful = true)
    (h : ∀ city, countCity store city ≤ 1) : countCity (forecastStep store c) c.city = 1 := by
  rcases forecastStep_cases store c with ⟨hf, _⟩ | ⟨_, d, _, he⟩
  · rw [hs] at hf; cases hf
  · rw [he, countCity_findOneAndUpdate_self]
    have := h c.city
    omega

theorem forecastStep_length_of_present (store : Store) (c : Call)
    (h : 1 ≤ countCity store c.city) : (forecastStep store c).length = store.length := by
  rcases forecastStep_cases store c with ⟨_, hs⟩ | ⟨_, d, _, hs⟩
  · rw [hs]
  · rw [hs, length_findOneAndUpdate]
    have : countCity store c.city ≠ 0 := by omega
    simp [this]

/-! ## The sorted, limited read -/

theorem findSortLimit_length (store : Store) :
    (findSortLimit store).length = min 10 store.length := by
  simp [findSortLimit, List.length_take, List.length_insertionSort]

theorem findSortLimit_sorted (store : Store) :
    List.Pairwise tsDesc (findSortLimit store) := by
  have h : List.Pairwise tsDesc (store.insertionSort tsDesc) := List.sorted_insertionSort tsDesc store
  exact h.sublist (List.take_sublist 10 _)

theorem findSortLimit_top (store : Store) :
    List.Perm (findSortLimit store ++ (store.insertionSort tsDesc).drop 10) store ∧
    ∀ r ∈ findSortLimit store, ∀ s ∈ (store.insertionSort tsDesc).drop 10, tsDesc r s := by
  have h : List.Pairwise tsDesc (store.insertionSort tsDesc) := List.sorted_insertionSort tsDesc store
  constructor
  · rw [findSortLimit, List.take_append_drop]
    exact List.perm_insertionSort tsDesc store
  · rw [← List.take_append_drop 10 (store.insertionSort tsDesc), List.pairwise_append] at h
    exact h.2.2

/-! ## Every eighth entry -/

theorem filterWithIndex_skip {α : Type} (p : α → Nat → Bool) (k : Nat) :
    ∀ (i : Nat) (xs : List α), (∀ x j, i ≤ j → j < i + k → p x j = false) →
      filterWithIndex p i xs = filterWithIndex p (i + k) (xs.drop k) := by
  induction k with
  | zero => intro i xs _; simp
  | succ k ih =>
    intro i xs h
    cases xs with
    | nil => simp [filterWithIndex]
    | cons x t =>
      have hx : p x i = false := h x i (Nat.le_refl i) (by omega)
      have hrec := ih (i + 1) t (fun y j h1 h2 => h y j (by omega) (by omega))
      simp only [filterWithIndex, hx, List.drop_succ_cons]
      have e : i + 1 + k = i + (k + 1) := by omega
      rw [hrec, e]
      simp

theorem filterWithIndex_mod8_shift (xs : List Entry) :
    ∀ i : Nat, filterWithIndex (fun (_ : Entry) j => j % 8 == 0) (i + 8) xs
      = filterWithIndex (fun (_ : Entry) j => j % 8 == 0) i xs := by
  induction xs with
  | nil => intro i; simp [filterWithIndex]
  | cons x t ih =>
    intro i
    have h := ih (i + 1)
    have e : i + 8 + 1 = i + 1 + 8 := by omega
    simp only [filterWithIndex, Nat.add_mod_right, e, h]

theorem every8_cons (x : Entry) (t : List Entry) :
    filterWithIndex (fun (_ : Entry) j => j % 8 == 0) 0 (x :: t)
      = x :: filterWithIndex (fun (_ : Entry) j => j % 8 == 0) 0 (t.drop 7) := by
  have hskip := filterWithIndex_skip (fun (_ : Entry) j => j % 8 == 0) 7 1 t
    (by
      intro _ j h1 h2
      have : j % 8 ≠ 0 := by omega
      simpa using this)
  have hshift := filterWithIndex_mod8_shift (t.drop 7) 0
  simp only [Nat.zero_add] at hshift
  simp only [filterWithIndex, Nat.zero_mod, beq_self_eq_true, if_true, Nat.zero_add]
  rw [hskip, hshift]

theorem every8_getElem? (k : Nat) :
    ∀ xs : List Entry,
      (filterWithIndex (fun (_ : Entry) j => j % 8 == 0) 0 xs)[k]? = xs[8 * k]? := by
  induction k with
  | zero =>
    intro xs
    cases xs with
    | nil => simp [filterWithIndex]
    | cons x t => rw [every8_cons]; simp
  | succ k ih =>
    intro xs
    cases xs with
    | nil => simp [filterWithIndex]
    | cons x t =>
      rw [every8_cons]
      have e : 8 * (k + 1) = (7 + 8 * k) + 1 := by omega
      rw [e, List.getElem?_cons_succ, List.getElem?_cons_succ, ih (t.drop 7), List.getElem?_drop]

theorem every8_length (xs : List Entry) :
    (filterWithIndex (fun (_ : Entry) j => j % 8 == 0) 0 xs).length = (xs.length + 7) / 8 := by
  have key : ∀ k, (filterWithIndex (fun (_ : Entry) j => j % 8 == 0) 0 xs).length ≤ k
      ↔ xs.length ≤ 8 * k := by
    intro k
    rw [← List.getElem?_eq_none_iff, ← List.getElem?_eq_none_iff, every8_getElem?]
  generalize (filterWithIndex (fun (_ : Entry) j => j % 8 == 0) 0 xs).length = m at key
  have h1 := (key m).1 (Nat.le_refl m)
  rcases Nat.eq_zero_or_pos m with h0 | hpos
  · subst h0; omega
  · have h2 : ¬ xs.length ≤ 8 * (m - 1) := fun hle => by
      have := (key (m - 1)).2 hle
      omega
    omega

/-! ## The precipitation value -/

theorem precip_no_rain (d : Entry) (h : d.rain = none) : precip d = Except.ok (JsVal.num 0) := by
  simp [precip, Entry.rainVal, h, JsVal.truthy, pure, Except.pure]

theorem precip_no_3h (d : Entry) (r : Rain) (h : d.rain = some r) (h3 : r.h3 = none) :
    precip d = Except.ok (JsVal.num 0) := by
  simp [precip, Entry.rainVal, h, h3, JsVal.truthy, JsVal.get3h, pure, Except.pure, bind, Except.bind]

theorem precip_3h (d : Entry) (r : Rain) (x : ℚ) (h : d.rain = some r) (h3 : r.h3 = some x) :
    precip d = Except.ok (JsVal.num x) := by
  by_cases hx : x = 0
  · simp [precip, Entry.rainVal, h, h3, hx, JsVal.truthy, JsVal.get3h, pure, Except.pure, bind,
      Except.bind]
  · simp [precip, Entry.rainVal, h, h3, hx, JsVal.truthy, JsVal.get3h, pure, Except.pure, bind,
      Except.bind]

theorem precip_total (d : Entry) : ∃ v : ℚ, precip d = Except.ok (JsVal.num v) := by
  cases h : d.rain with
  | none => exact ⟨0, precip_no_rain d h⟩
  | some r =>
    cases h3 : r.h3 with
    | none => exact ⟨0, precip_no_3h d r h h3⟩
    | some x => exact ⟨x, precip_3h d r x h h3⟩

theorem precip_eq_spec (d : Entry) : precip d = Except.ok (JsVal.num (precipSpec d)) := by
  cases h : d.rain with
  | none => simpa [precipSpec, h] using precip_no_rain d h
  | some r =>
    cases h3 : r.h3 with
    | none => simpa [precipSpec, h, h3] using precip_no_3h d r h h3
    | some x => simpa [precipSpec, h, h3] using precip_3h d r x h h3

theorem mapThrow_precip_values (xs : List Entry) :
    mapThrow precip xs = Except.ok (xs.map (fun e => JsVal.num (precipSpec e))) := by
  induction xs with
  | nil => rfl
  | cons x t ih => simp [mapThrow, precip_eq_spec x, ih]

/-! ## The update of an existing record -/

theorem find?_findOneAndUpdate (store : Store) (city : String) (d : Payload) (now : Nat)
    (r : Record) (hr : store.find? (fun x => decide (x.city = city)) = some r) :
    (findOneAndUpdate store city d now).find? (fun x => decide (x.city = city))
      = some { city := city, data := d, timestamp := r.timestamp } := by
  induction store with
  | nil => simp at hr
  | cons a rest ih =>
    by_cases h : a.city = city
    · have ha : a = r := by simpa [List.find?, h] using hr
      subst ha
      simp [findOneAndUpdate, h, List.find?]
    · have hrest : rest.find? (fun x => decide (x.city = city)) = some r := by
        simpa [List.find?, h] using hr
      simp [findOneAndUpdate, h, List.find?, ih hrest]

theorem countCity_pos_of_find? (store : Store) (city : String) (r : Record)
    (hr : store.find? (fun x => decide (x.city = city)) = some r) : 1 ≤ countCity store city := by
  have hmem : r ∈ store := List.mem_of_find?_eq_some hr
  have hp : decide (r.city = city) = true :=
    List.find?_some (p := fun x : Record => decide (x.city = city)) hr
  exact List.countP_pos_iff.2 ⟨r, hmem, hp⟩

/-! ## The claims -/

/-- C1: starting from the empty store, after any sequence of forecast requests
every city has at most one stored record; a successful request for a city then
leaves exactly one record with that city, and a later successful request for
the same city, whatever requests came in between, leaves the number of records
as it was. -/
theorem one_record_per_city (calls : List Call) :
    (∀ city, countCity (runCalls [] calls) city ≤ 1) ∧
    (∀ c : Call, c.successful = true →
      countCity (forecastStep (runCalls [] calls) c) c.city = 1 ∧
      ∀ (between : List Call) (c2 : Call), c2.successful = true → c2.city = c.city →
        (forecastStep (runCalls (forecastStep (runCalls [] calls) c) between) c2).length
          = (runCalls (forecastStep (runCalls [] calls) c) between).length) := by
  have hinv : ∀ city, countCity (runCalls [] calls) city ≤ 1 :=
    runCalls_atMostOne calls [] (by simp [countCity])
  refine ⟨hinv, ?_⟩
  intro c hc
  have hone := forecastStep_successful_count (runCalls [] calls) c hc hinv
  refine ⟨hone, ?_⟩
  intro between c2 _ hcity
  apply forecastStep_length_of_present
  rw [hcity]
  exact runCalls_present between _ c.city (by omega)

/-- C1 at the sample run followed by two successful requests for Paris. -/
theorem one_record_per_city_witness :
    countCity (forecastStep (runCalls [] sampleCalls) { city := "Paris", world := worldOk payloadB 8 })
        "Paris" = 1 ∧
    (forecastStep
        (runCalls (forecastStep (runCalls [] sampleCalls) { city := "Paris", world := worldOk payloadB 8 })
          sampleCalls)
        { city := "Paris", world := worldOk payloadA 9 }).length
      = (runCalls (forecastStep (runCalls [] sampleCalls) { city := "Paris", world := worldOk payloadB 8 })
          sampleCalls).length :=
  have h := (one_record_per_city sampleCalls).2 { city := "Paris", world := worldOk payloadB 8 } rfl
  ⟨h.1, h.2 sampleCalls { city := "Paris", world := worldOk payloadA 9 } rfl rfl⟩

/-- C2: when the provider call fails, whatever its error, the forecast handler
answers status 500 with the body `{error: "City not found!"}` and the store is
the one before the request. -/
theorem forecast_provider_failure (w : World) (store : Store) (city : String) (e : String)
    (hp : w.provider = Except.error e) :
    forecastHandler w store city
      = Except.ok ({ status := 500, body := Body.error "City not found!" }, store) :=
  forecastHandler_provider_error w store city e hp

/-- C2 at the unknown city and the twelve-record store. -/
theorem forecast_provider_failure_witness :
    forecastHandler (worldProviderDown "Request failed with status code 404" 6) sampleStore "Zzyzxtown"
      = Except.ok ({ status := 500, body := Body.error "City not found!" }, sampleStore) :=
  forecast_provider_failure (worldProviderDown "Request failed with status code 404" 6) sampleStore
    "Zzyzxtown" "Request failed with status code 404" rfl

/-- C3: when the read succeeds, the history handler answers 200 with a list of
min(10, store size) records, so at most 10, ordered non-increasing by
timestamp, which together with the records left out is the whole store, each
listed record having a timestamp at least that of every record left out. -/
theorem history_top_ten (store : Store) :
    ∃ history : List Record,
      historyHandler store none
        = Except.ok ({ status := 200, body := Body.records history }, store) ∧
      history.length = min 10 store.length ∧
      history.length ≤ 10 ∧
      List.Pairwise (fun a b : Record => b.timestamp ≤ a.timestamp) history ∧
      ∃ leftOut : List Record,
        List.Perm (history ++ leftOut) store ∧
        ∀ r ∈ history, ∀ s ∈ leftOut, s.timestamp ≤ r.timestamp := by
  refine ⟨findSortLimit store, rfl, findSortLimit_length store, ?_, findSortLimit_sorted store,
    (store.insertionSort tsDesc).drop 10, (findSortLimit_top store).1, (findSortLimit_top store).2⟩
  rw [findSortLimit_length]
  exact Nat.min_le_left 10 _

/-- C3 at the twelve-record store. -/
theorem history_top_ten_witness :
    ∃ history : List Record,
      historyHandler sampleStore none
        = Except.ok ({ status := 200, body := Body.records history }, sampleStore) ∧
      history.length = min 10 sampleStore.length ∧
      history.length ≤ 10 ∧
      List.Pairwise (fun a b : Record => b.timestamp ≤ a.timestamp) history ∧
      ∃ leftOut : List Record,
        List.Perm (history ++ leftOut) sampleStore ∧
        ∀ r ∈ history, ∀ s ∈ leftOut, s.timestamp ≤ r.timestamp :=
  history_top_ten sampleStore

/-- C4 (what the code does): a GET for `/history` matches `'/:city'`, the
route registered first, with `city = "history"`, so the forecast handler
runs. With a provider that answers, the payload is returned and a record for
the city `history` is written; with a provider that fails, the answer is 500
with `{error: "City not found!"}`. The history handler does not run. -/
theorem history_path_runs_forecast :
    dispatch "/history" = some (Target.forecast "history") ∧
    (∀ (w : World) (readError : Option String) (store : Store),
      routerGet w readError store "/history" = some (forecastHandler w store "history")) ∧
    routerGet (worldOk payloadB 3) none [] "/history"
      = some (Except.ok ({ status := 200, body := Body.payload payloadB },
          [{ city := "history", data := payloadB, timestamp := 3 }])) ∧
    routerGet (worldProviderDown "404" 3) none [] "/history"
      = some (Except.ok ({ status := 500, body := Body.error "City not found!" }, [])) ∧
    routerGet (worldProviderDown "404" 3) none [] "/history" ≠ some (historyHandler [] none) := by
  have hd : dispatch "/history" = some (Target.forecast "history") := by decide
  refine ⟨hd, ?_, ?_, ?_, ?_⟩
  · intro w readError store
    simp [routerGet, hd]
  · have h := forecastHandler_success (worldOk payloadB 3) [] "history" payloadB rfl rfl
    simp only [routerGet, hd, h]
    rfl
  · have h := forecastHandler_provider_error (worldProviderDown "404" 3) [] "history" "404" rfl
    simp only [routerGet, hd, h]
  · have h := forecastHandler_provider_error (worldProviderDown "404" 3) [] "history" "404" rfl
    simp [routerGet, hd, h, historyHandler]

/-- C5: the daily series of a payload has ceil(|list| / 8) entries and its
`k`-th entry is the entry of the list at index `8 * k`, so it is the entries at
the indices divisible by 8 in increasing order; for a list of 40 entries it is
the five entries at indices 0, 8, 16, 24 and 32. -/
theorem dailyData_every_eighth (w : Payload) :
    (dailyData (some w)).length = (w.list.length + 7) / 8 ∧
    (∀ k : Nat, (dailyData (some w))[k]? = w.list[8 * k]?) ∧
    (∀ h : w.list.length = 40,
      dailyData (some w) = [w.list[0], w.list[8], w.list[16], w.list[24], w.list[32]]) := by
  refine ⟨every8_length w.list, fun k => every8_getElem? k w.list, ?_⟩
  intro h
  apply List.ext_getElem?
  intro k
  have hk : (dailyData (some w))[k]? = w.list[8 * k]? := every8_getElem? k w.list
  rw [hk]
  rcases k with _ | _ | _ | _ | _ | k
  · simp [List.getElem?_eq_getElem, h]
  · simp [List.getElem?_eq_getElem, h]
  · simp [List.getElem?_eq_getElem, h]
  · simp [List.getElem?_eq_getElem, h]
  · simp [List.getElem?_eq_getElem, h]
  · have hle : w.list.length ≤ 8 * (k + 1 + 1 + 1 + 1 + 1) := by omega
    simp [List.getElem?_eq_none_iff.2 hle]

/-- C5 at the forty-entry payload: the entries kept are those numbered 0, 8, 16, 24, 32. -/
theorem dailyData_every_eighth_witness :
    (dailyData (some payload40)).map (fun d => d.dt) = [0, 8, 16, 24, 32] := by
  have h := (dailyData_every_eighth payload40).2.2 (by decide)
  rw [h]
  decide

/-- C6: the precipitation value of an entry is a number, not an error and not
`undefined`: 0 when the entry has no `rain` field, 0 when `rain` has no `'3h'`
value or a zero one, and `rain['3h']` otherwise; the precipitation series is
computed without error, has the length of the daily series, and its `i`-th
value is the precipitation value of the `i`-th daily entry. -/
theorem precip_defined (d : Entry) (weather : Option Payload) :
    (∃ v : ℚ, precip d = Except.ok (JsVal.num v) ∧
      (d.rain = none → v = 0) ∧
      (∀ r : Rain, d.rain = some r → (r.h3 = none ∨ r.h3 = some 0) → v = 0) ∧
      (∀ (r : Rain) (x : ℚ), d.rain = some r → r.h3 = some x → v = x)) ∧
    (∃ vs : List JsVal, precipData weather = Except.ok vs ∧
      vs.length = (dailyData weather).length ∧
      (∀ y ∈ vs, ∃ v : ℚ, y = JsVal.num v) ∧
      vs.map (fun y => (Except.ok y : Except String JsVal)) = (dailyData weather).map precip ∧
      vs = (dailyData weather).map (fun e => JsVal.num (precipSpec e))) := by
  refine ⟨?_, (dailyData weather).map (fun e => JsVal.num (precipSpec e)),
    mapThrow_precip_values (dailyData weather), by simp, ?_, ?_, rfl⟩
  · obtain ⟨v, hv⟩ := precip_total d
    refine ⟨v, hv, ?_, ?_, ?_⟩
    · intro h
      have := precip_no_rain d h
      rw [hv] at this
      injection this with h1
      injection h1
    · intro r h h3
      rcases h3 with h3 | h3
      · have := precip_no_3h d r h h3
        rw [hv] at this
        injection this with h1
        injection h1
      · have := precip_3h d r 0 h h3
        rw [hv] at this
        injection this with h1
        injection h1
    · intro r x h h3
      have := precip_3h d r x h h3
      rw [hv] at this
      injection this with h1
      injection h1
  · intro y hy
    obtain ⟨e, _, rfl⟩ := List.mem_map.1 hy
    exact ⟨precipSpec e, rfl⟩
  · rw [List.map_map]
    apply List.map_congr_left
    intro e _
    exact (precip_eq_spec e).symm

/-- C6 at an entry with 3 mm of rain and at the seventeen-entry payload, whose
daily entries (indices 0, 8, 16) give the series 3, 0, 0. -/
theorem precip_defined_witness :
    precip entryRain = Except.ok (JsVal.num 3) ∧
    precipData (some payloadRain) = Except.ok [JsVal.num 3, JsVal.num 0, JsVal.num 0] := by
  obtain ⟨⟨v, hv, _, _, h3⟩, vs, hvs, _, _, _, hval⟩ := precip_defined entryRain (some payloadRain)
  have hv3 : v = 3 := h3 { h3 := some 3 } 3 rfl rfl
  refine ⟨by rw [hv, hv3], ?_⟩
  have hlist : (dailyData (some payloadRain)).map (fun e => JsVal.num (precipSpec e))
      = [JsVal.num 3, JsVal.num 0, JsVal.num 0] := by decide
  rw [hvs, hval, hlist]

/-- C7 (fails): with a record for Paris inserted at time 5, a successful
forecast request for Paris at time 9 leaves that record with timestamp 5, not 9. -/
theorem forecast_update_timestamp_counterexample :
    forecastHandler (worldOk payloadB 9) [{ city := "Paris", data := payloadA, timestamp := 5 }] "Paris"
      = Except.ok ({ status := 200, body := Body.payload payloadB },
          [{ city := "Paris", data := payloadB, timestamp := 5 }]) ∧
    ¬ (∀ (resp : Response) (store' : Store),
        forecastHandler (worldOk payloadB 9) [{ city := "Paris", data := payloadA, timestamp := 5 }]
            "Paris" = Except.ok (resp, store') →
        ∀ r ∈ store', r.city = "Paris" → r.data = payloadB ∧ r.timestamp = 9) := by
  have h : forecastHandler (worldOk payloadB 9)
      [{ city := "Paris", data := payloadA, timestamp := 5 }] "Paris"
      = Except.ok ({ status := 200, body := Body.payload payloadB },
          [{ city := "Paris", data := payloadB, timestamp := 5 }]) := by
    rw [forecastHandler_success (worldOk payloadB 9) _ "Paris" payloadB rfl rfl]
    rfl
  refine ⟨h, ?_⟩
  intro hall
  have := (hall _ _ h { city := "Paris", data := payloadB, timestamp := 5 }
    (List.mem_singleton.2 rfl) rfl).2
  exact absurd this (by decide)

/-- C7 (amended): for a city whose first stored record is `r`, a successful
forecast request answers 200 with the payload and replaces that record's
payload only: afterwards the first record of the city carries the new payload
and the timestamp `r` had, and the number of records is unchanged. -/
theorem forecast_update_keeps_timestamp (w : World) (store : Store) (city : String)
    (d : Payload) (r : Record) (hp : w.provider = Except.ok d) (hw : w.writeError = none)
    (hr : store.find? (fun x => decide (x.city = city)) = some r) :
    ∃ store' : Store,
      forecastHandler w store city
        = Except.ok ({ status := 200, body := Body.payload d }, store') ∧
      store'.find? (fun x => decide (x.city = city))
        = some { city := city, data := d, timestamp := r.timestamp } ∧
      store'.length = store.length := by
  refine ⟨findOneAndUpdate store city d w.now, forecastHandler_success w store city d hp hw,
    find?_findOneAndUpdate store city d w.now r hr, ?_⟩
  rw [length_findOneAndUpdate]
  have := countCity_pos_of_find? store city r hr
  have hne : countCity store city ≠ 0 := by omega
  simp [hne]

/-- C7 (amended) at a store holding Rome and Paris. -/
theorem forecast_update_keeps_timestamp_witness :
    ∃ store' : Store,
      forecastHandler (worldOk payloadB 9)
          [{ city := "Rome", data := payloadA, timestamp := 4 },
           { city := "Paris", data := payloadA, timestamp := 5 }] "Paris"
        = Except.ok ({ status := 200, body := Body.payload payloadB }, store') ∧
      store'.find? (fun x => decide (x.city = "Paris"))
        = some { city := "Paris", data := payloadB, timestamp := 5 } ∧
      store'.length = 2 :=
  forecast_update_keeps_timestamp (worldOk payloadB 9)
    [{ city := "Rome", data := payloadA, timestamp := 4 },
     { city := "Paris", data := payloadA, timestamp := 5 }] "Paris" payloadB
    { city := "Paris", data := payloadA, timestamp := 5 } rfl rfl (by decide)

/-- C8 (fails): when the read fails on the empty store, the history handler
answers status 500, which is not a success status. -/
theorem history_read_failure_counterexample :
    historyHandler [] (some "connection lost")
      = Except.ok ({ status := 500, body := Body.records [] }, []) ∧
    ¬ (∃ (resp : Response) (store' : Store),
        historyHandler [] (some "connection lost") = Except.ok (resp, store') ∧
        isSuccessStatus resp.status = true ∧ resp.body = Body.records []) := by
  refine ⟨rfl, ?_⟩
  rintro ⟨resp, store', h, hs, _⟩
  have h1 : (Except.ok ({ status := 500, body := Body.records [] }, []) :
      Except String (Response × Store)) = Except.ok (resp, store') := h
  injection h1 with h2
  injection h2 with h3 _
  subst h3
  exact absurd hs (by decide)

/-- C8 (amended): when the read fails, whatever the store and the error, the
history handler answers status 500 with the empty list as body; no error
leaves the handler and the store is untouched. -/
theorem history_read_failure (store : Store) (e : String) :
    historyHandler store (some e)
      = Except.ok ({ status := 500, body := Body.records [] }, store) := rfl

/-- C9 (fails): with a provider that answers and a write that rejects, the
forecast handler answers 500; no error leaves it. -/
theorem forecast_write_failure_counterexample :
    forecastHandler (worldWriteDown payloadB "connection lost" 9) [] "Paris"
      = Except.ok ({ status := 500, body := Body.error "City not found!" }, []) ∧
    ¬ (∃ e : String,
        forecastHandler (worldWriteDown payloadB "connection lost" 9) [] "Paris" = Except.error e) := by
  have h := forecastHandler_write_error (worldWriteDown payloadB "connection lost" 9) [] "Paris"
    payloadB "connection lost" rfl rfl
  refine ⟨h, ?_⟩
  rintro ⟨e, he⟩
  rw [h] at he
  cases he

/-- C9 (amended): when the provider call succeeds and the store write fails,
the failure is caught by the handler's own `catch`: the answer is status 500
with the body `{error: "City not found!"}`, the store is unchanged and no
error leaves the handler. -/
theorem forecast_write_failure_caught (w : World) (store : Store) (city : String) (d : Payload)
    (e : String) (hp : w.provider = Except.ok d) (hw : w.writeError = some e) :
    forecastHandler w store city
      = Except.ok ({ status := 500, body := Body.error "City not found!" }, store) :=
  forecastHandler_write_error w store city d e hp hw

/-- C9 (amended) at a rejected write on the twelve-record store. -/
theorem forecast_write_failure_caught_witness :
    forecastHandler (worldWriteDown payloadB "connection lost" 9) sampleStore "Paris"
      = Except.ok ({ status := 500, body := Body.error "City not found!" }, sampleStore) :=
  forecast_write_failure_caught (worldWriteDown payloadB "connection lost" 9) sampleStore "Paris"
    payloadB "connection lost" rfl rfl

/-- C10 (fails): from a state showing an earlier result for a non-blank city,
a failed request leaves that result in place. -/
theorem fetchWeather_failure_counterexample :
    jsTrim clientShowing.city ≠ "" ∧
    (fetchWeather clientShowing (Except.error "Network Error")).weather = some payloadB ∧
    ¬ ((fetchWeather clientShowing (Except.error "Network Error")).error
          = some "City not found or server error. Please try again." ∧
        (fetchWeather clientShowing (Except.error "Network Error")).loading = false ∧
        (fetchWeather clientShowing (Except.error "Network Error")).weather = none) := by
  refine ⟨by decide, by decide, ?_⟩
  rintro ⟨_, _, h⟩
  exact absurd h (by decide)

/-- C10 (amended): for every state with a non-blank city, a `fetchWeather`
whose request fails ends with the fixed error message, `loading` false, and
`city` and `weather` as they were. -/
theorem fetchWeather_failure (s : ClientState) (e : String) (hcity : jsTrim s.city ≠ "") :
    fetchWeather s (Except.error e)
      = { city := s.city, weather := s.weather, loading := false,
          error := some "City not found or server error. Please try again." } := by
  simp [fetchWeather, hcity]

/-- C10 (amended) at a state showing an earlier result. -/
theorem fetchWeather_failure_witness :
    fetchWeather clientShowing (Except.error "Network Error")
      = { city := "Paris", weather := some payloadB, loading := false,
          error := some "City not found or server error. Please try again." } :=
  fetchWeather_failure clientShowing "Network Error" (by decide)

end Weather
